import Mathlib

/-!
Shallow embedding of the per-block matching and publication core of the
BinanceChain ABCI application (`app.go`): the EndBlocker orchestrator, the
fee-collection drain loop, the trade-publication join, the publication
handoff, and the account-balance aggregation (`getAccountBalances` /
`getAllChangedAccountBalances`).

Go machine integers (`int64`) are modelled as `Int`; block heights and
timestamps, which are nonnegative in every reachable state, as `Nat`.
Go maps are modelled as functions into `Option`; Go's unspecified map
iteration order is made explicit by passing the iteration sequence as a
list parameter.  A Go panic or a forever-blocked channel operation is
modelled as `Option.none`.
-/

namespace BinanceChain

/-! ## Data model -/

/-- An `sdk.Coin`: a denomination together with an amount. -/
structure Coin where
  denom : String
  amount : Int
deriving DecidableEq, Repr

/-- `pub.AssetBalance`: per-asset free / frozen / locked balances. -/
structure AssetBalance where
  asset : String
  free : Int
  frozen : Int
  locked : Int
deriving DecidableEq, Repr

/-- `pub.Account`: a bech32 address together with its asset balances. -/
structure Account where
  owner : String
  balances : List AssetBalance
deriving DecidableEq, Repr

/-- The `types.NamedAccount` capability set used by `getAccountBalances`:
`GetCoins` (free), `GetFrozenCoins`, `GetLockedCoins`. -/
structure NamedAccount where
  coins : List Coin
  frozenCoins : List Coin
  lockedCoins : List Coin
deriving DecidableEq, Repr

/-! ## Account aggregation (`getAccountBalances`, lines 480-521)

The Go function builds `assetsMap : map[string]*pub.AssetBalance` and a
slice `assets : []pub.AssetBalance`.  In the free-coin loop, a new
denomination allocates `newAB`, appends a *value copy* of it to `assets`,
and stores the pointer `&newAB` in `assetsMap`; later writes through
`assetsMap` mutate the pointed-to object, never the copy inside `assets`.
The frozen and locked loops insert new denominations into `assetsMap`
only, without appending to `assets`.  We model the pointed-to objects as a
heap (`List AssetBalance` indexed by allocation order), `assetsMap` as an
association list from denom to heap index, and `assets` as the list of
value copies taken at append time. -/

/-- The mutable state of one `getAccountBalances` account scan:
heap of allocated `AssetBalance` objects, the pointer map, and the
appended value copies. -/
structure BalState where
  heap : List AssetBalance
  assetsMap : List (String × Nat)
  assets : List AssetBalance
deriving Repr

/-- Write through a pointer: update the heap object at index `i`. -/
def heapWrite (heap : List AssetBalance) (i : Nat) (f : AssetBalance → AssetBalance) :
    List AssetBalance :=
  match heap.get? i with
  | some ab => heap.set i (f ab)
  | none => heap

/-- One iteration of the free-coin loop (lines 489-497): on a map hit, set
`Free` on the pointed-to object; on a miss, allocate `newAB`, append a
value copy to `assets`, and store the pointer in `assetsMap`. -/
def freeStep (st : BalState) (c : Coin) : BalState :=
  match st.assetsMap.lookup c.denom with
  | some i => { st with heap := heapWrite st.heap i (fun ab => { ab with free := c.amount }) }
  | none =>
      let newAB : AssetBalance := { asset := c.denom, free := c.amount, frozen := 0, locked := 0 }
      { heap := st.heap ++ [newAB]
        assetsMap := (c.denom, st.heap.length) :: st.assetsMap
        assets := st.assets ++ [newAB] }

/-- One iteration of the frozen-coin loop (lines 499-505): on a hit, set
`Frozen` through the pointer; on a miss, insert a fresh object into
`assetsMap` only (no append to `assets`). -/
def frozenStep (st : BalState) (c : Coin) : BalState :=
  match st.assetsMap.lookup c.denom with
  | some i => { st with heap := heapWrite st.heap i (fun ab => { ab with frozen := c.amount }) }
  | none =>
      { st with
        heap := st.heap ++ [{ asset := c.denom, free := 0, frozen := c.amount, locked := 0 }]
        assetsMap := (c.denom, st.heap.length) :: st.assetsMap }

/-- One iteration of the locked-coin loop (lines 507-513). -/
def lockedStep (st : BalState) (c : Coin) : BalState :=
  match st.assetsMap.lookup c.denom with
  | some i => { st with heap := heapWrite st.heap i (fun ab => { ab with locked := c.amount }) }
  | none =>
      { st with
        heap := st.heap ++ [{ asset := c.denom, free := 0, frozen := 0, locked := c.amount }]
        assetsMap := (c.denom, st.heap.length) :: st.assetsMap }

/-- The three loops of `getAccountBalances` for one account; the published
`pub.Account` carries the `assets` slice, i.e. the value copies. -/
def accountAssets (acc : NamedAccount) : List AssetBalance :=
  let st0 : BalState := { heap := [], assetsMap := [], assets := [] }
  let st1 := acc.coins.foldl freeStep st0
  let st2 := acc.frozenCoins.foldl frozenStep st1
  let st3 := acc.lockedCoins.foldl lockedStep st2
  st3.assets

/-- Insert into the `res` map (`res[bech32Str] = pub.Account{...}`). -/
def insertAccount (res : String → Option Account) (addr : String) (a : Account) :
    String → Option Account :=
  fun s => if s = addr then some a else res s

/-- One iteration of the address loop of `getAccountBalances`
(lines 481-520): skip addresses already in `res`; look the account up
(`GetAccount` plus the `NamedAccount` type assertion, modelled as one
`Option`-valued lookup); on success insert the built account, on failure
log and skip. -/
def gabStep (lookupAcc : String → Option NamedAccount) (res : String → Option Account)
    (addr : String) : String → Option Account :=
  match res addr with
  | some _ => res
  | none =>
      match lookupAcc addr with
      | some acc => insertAccount res addr { owner := addr, balances := accountAssets acc }
      | none => res

/-- `getAccountBalances(res, accs)`: fold the address loop over the
iteration sequence of the `accs` set. -/
def getAccountBalances (lookupAcc : String → Option NamedAccount)
    (res : String → Option Account) (accs : List String) : String → Option Account :=
  accs.foldl (gabStep lookupAcc) res

/-- `getAllChangedAccountBalances(txRelatedAccounts, tradeRelatedAccounts)`
(lines 471-478): start from the empty map, scan the tx-related addresses,
then the trade-related addresses. -/
def getAllChangedAccountBalances (lookupAcc : String → Option NamedAccount)
    (txRelated tradeRelated : List String) : String → Option Account :=
  getAccountBalances lookupAcc (getAccountBalances lookupAcc (fun _ => none) txRelated)
    tradeRelated

/-! ## Blocks, times and block-kind selection (lines 241-249, 338-347) -/

/-- Modelled from the spec: `utils.SameDayInUTC` lives in `common/utils`,
outside the sources at hand.  Per the spec, two times fall in the same UTC
day iff their UTC calendar dates coincide; with times as seconds since the
Unix epoch this is equality of the floor divisions by 86400. -/
def sameDayInUTC (t1 t2 : Nat) : Bool :=
  t1 / 86400 = t2 / 86400

/-- Block-kind selection, line 249: `if SameDayInUTC(lastBlockTime,
blockTime) || height == 1` then normal block, `else` breathe block. -/
def isBreatheBlock (lastBlockTime blockTime height : Nat) : Bool :=
  !(sameDayInUTC lastBlockTime blockTime || height == 1)

/-! ## Transfers and the fee-collection drain loop (lines 256-310) -/

/-- One entry of `tran.Fee.Tokens`: denom and amount. -/
structure FeeToken where
  denom : String
  amount : Int
deriving DecidableEq, Repr

/-- An `order.Transfer` as consumed by the drain loop.  `IsBuyer`,
`IsExpired` and `FeeFree` are methods of the out-of-scope dex order
package; per the spec's data model they are carried as boolean attributes
of the transfer. -/
structure Transfer where
  bid : String
  sid : String
  isBuyer : Bool
  isExpired : Bool
  feeFree : Bool
  feeTokens : List FeeToken
deriving DecidableEq, Repr

/-- An `order.OrderChange` record held (behind a pointer) in
`DexKeeper.OrderChangesMap`; only the fee fields are touched here. -/
structure OrderChange where
  feeAsset : String
  fee : Int
deriving DecidableEq, Repr

/-- A `pub.Trade` under construction in `groupedTrades` and emitted in
`tradesToPublish`. -/
structure PubTrade where
  id : String
  symbol : String
  price : Int
  qty : Int
  buyCumQty : Int
  bid : String
  sid : String
  bfee : Int
  bfeeAsset : String
  sfee : Int
  sfeeAsset : String
deriving DecidableEq, Repr

/-- The zero value `new(pub.Trade)` with `Bid`/`Sid` filled in
(lines 285-287, 293-295). -/
def newGroupedTrade (b s : String) : PubTrade :=
  { id := "", symbol := "", price := 0, qty := 0, buyCumQty := 0
    bid := b, sid := s, bfee := 0, bfeeAsset := "", sfee := 0, sfeeAsset := "" }

/-- Update the two-level map `groupedTrades[bid][sid]`. -/
def insertGrouped (g : String → String → Option PubTrade) (b s : String) (t : PubTrade) :
    String → String → Option PubTrade :=
  fun b' s' => if b' = b then (if s' = s then some t else g b' s') else g b' s'

/-- The state mutated by the drain loop: the keeper's `OrderChangesMap`
(value type `*OrderChange`; a missing key yields a nil pointer) and the
local `groupedTrades`. -/
structure DrainState where
  ocm : String → Option OrderChange
  grouped : String → String → Option PubTrade

/-- One iteration of `for tran := range transCh` (lines 265-310), i.e. the
body applied to one drained transfer.  `none` models a Go panic: either
`tran.Fee.Tokens[0]` out of range, or a field write through the nil
`*OrderChange` returned for a key absent from `OrderChangesMap`. -/
def feeDrainStep (st : DrainState) (tran : Transfer) : Option DrainState :=
  if tran.isExpired then
    if tran.feeFree then some st
    else
      match tran.feeTokens.head? with
      | none => none
      | some tok =>
          let key := if tran.isBuyer then tran.bid else tran.sid
          match st.ocm key with
          | none => none
          | some oc =>
              some { st with
                ocm := fun s =>
                  if s = key then some { oc with feeAsset := tok.denom, fee := tok.amount }
                  else st.ocm s }
  else
    let t0 := match st.grouped tran.bid tran.sid with
      | some t => t
      | none => newGroupedTrade tran.bid tran.sid
    if tran.feeFree then
      some { st with grouped := insertGrouped st.grouped tran.bid tran.sid t0 }
    else
      match tran.feeTokens.head? with
      | none => none
      | some tok =>
          let t1 :=
            if tran.isBuyer then { t0 with bfee := tok.amount, bfeeAsset := tok.denom }
            else { t0 with sfee := tok.amount, sfeeAsset := tok.denom }
          some { st with grouped := insertGrouped st.grouped tran.bid tran.sid t1 }

/-! ## The bounded `transCh` channel (lines 256-263)

`transCh` is a buffered channel of capacity `pub.FeeCollectionChannelSize`.
The EndBlocker goroutine is its only sender (through the
`feeCollectorForTrades` callback invoked synchronously inside
`MatchAndAllocateAll`) and its only receiver, and it receives only after
`MatchAndAllocateAll` has returned and the channel is closed.  Hence a
send that finds the buffer full blocks forever: no other goroutine can
ever free a slot.  We track the buffer occupancy through the sequence of
sends; `none` means the goroutine is blocked on a send. -/

/-- Perform `n` sends on a buffered channel of capacity `cap` whose buffer
currently holds `buf` items, with no concurrent receiver.  Returns the
final occupancy, or `none` if some send blocks forever. -/
def transChSends : Nat → Nat → Nat → Option Nat
  | _, 0, buf => some buf
  | cap, n + 1, buf => if buf < cap then transChSends cap n (buf + 1) else none

/-- The whole fee-collection phase of a normal block with publication
live: the callback sends every transfer on `transCh`; if all sends
complete, the channel is closed and the same goroutine drains the
transfers in send order through `feeDrainStep`. -/
def feeCollectionPhase (cap : Nat) (transfers : List Transfer) (st : DrainState) :
    Option DrainState :=
  match transChSends cap transfers.length 0 with
  | none => none
  | some _ => transfers.foldlM feeDrainStep st

/-! ## The trade-publication join (lines 312-334) -/

/-- A `matcheng.Trade` as returned by `DexKeeper.GetLastTrades()`. -/
structure MatchTrade where
  bId : String
  sId : String
  lastPx : Int
  lastQty : Int
  buyCumQty : Int
deriving DecidableEq, Repr

/-- `fmt.Sprintf("%d-%d", height, tradeIdx)`. -/
def tradeIdString (height idx : Nat) : String :=
  toString height ++ "-" ++ toString idx

/-- The body of the inner loop over one symbol's trades: look up
`groupedTrades[trade.BId][trade.SId]`; if present, stamp id, symbol,
price, qty and buyCumQty, append, and advance `tradeIdx`; if absent, log
the internal inconsistency and skip. -/
def joinTradesStep (height : Nat) (grouped : String → String → Option PubTrade)
    (symbol : String) (acc : Nat × List PubTrade) (trade : MatchTrade) :
    Nat × List PubTrade :=
  match grouped trade.bId trade.sId with
  | some t =>
      (acc.1 + 1,
        acc.2 ++ [{ t with
          id := tradeIdString height acc.1
          symbol := symbol
          price := trade.lastPx
          qty := trade.lastQty
          buyCumQty := trade.buyCumQty }])
  | none => acc

/-- The `for symbol, trades := range *allTrades` double loop.  The outer
loop ranges over a Go map, whose iteration order is unspecified; the order
actually taken is the `allTrades` list parameter. -/
def joinTrades (height : Nat) (grouped : String → String → Option PubTrade)
    (allTrades : List (String × List MatchTrade)) : Nat × List PubTrade :=
  allTrades.foldl (fun acc p => p.2.foldl (joinTradesStep height grouped p.1) acc) (0, [])

/-! ## The publication handoff removal loop (lines 386-396)

After `BlockInfoToPublish` is sent on `ToPublishCh`, the EndBlocker
goroutine loops on a `select` over `ToRemoveOrderIdCh` (delete the
received id from `OrderChangesMap`) and `RemoveDoneCh` (break out).  The
sequence of channel events the worker produces is a list; the loop has no
other exit, so a stream with no done signal leaves the goroutine blocked
(`none`). -/

/-- One channel event observed by the removal `select` loop. -/
inductive RemoveEvent where
  | removeId (id : String)
  | removeDone
deriving DecidableEq, Repr

/-- Delete an id from the order-changes map (`delete(OrderChangesMap, id)`). -/
def ocmErase (m : String → Option OrderChange) (id : String) : String → Option OrderChange :=
  fun s => if s = id then none else m s

/-- Delete each id of a list in order. -/
def ocmEraseAll (ids : List String) (m : String → Option OrderChange) :
    String → Option OrderChange :=
  ids.foldl ocmErase m

/-- The `cont: for { select ... } }` loop: process events until the first
done signal; `none` if the stream ends without one. -/
def drainRemovals : List RemoveEvent → (String → Option OrderChange) →
    Option (String → Option OrderChange)
  | [], _ => none
  | RemoveEvent.removeId i :: rest, m => drainRemovals rest (ocmErase m i)
  | RemoveEvent.removeDone :: _, m => some m

/-! ## Publisher liveness and the EndBlocker skeleton -/

/-- The three per-feed publication flags of `config.PublicationConfig`. -/
structure PublicationConfig where
  publishMarketData : Bool
  publishAccountBalance : Bool
  publishOrderBook : Bool
deriving DecidableEq, Repr

/-- The publisher bits EndBlocker consults: the `IsLive` health bit and
the per-feed flags. -/
structure MarketDataPublisher where
  isLive : Bool
  publishMarketData : Bool
  publishAccountBalance : Bool
  publishOrderBook : Bool
deriving DecidableEq, Repr

/-- Modelled from the spec: `pub.MarketDataPublisher.ShouldPublish` lives
in the out-of-scope `pub` package; per the spec it "aggregates the
per-feed flags and liveness". -/
def shouldPublish (p : MarketDataPublisher) : Bool :=
  p.isLive && (p.publishMarketData || p.publishAccountBalance || p.publishOrderBook)

/-- Modelled from the spec: publisher start-up (`NewBinanceChain`,
lines 112-130 plus `pub.MarketDataPublisher.Init`).  When any flag is set
the publisher is created and `Init` is attempted; on failure the worker
stays degraded (`IsLive == false`), on success it is live. -/
def initPublisher (cfg : PublicationConfig) (initOk : Bool) : MarketDataPublisher :=
  { isLive := initOk
    publishMarketData := cfg.publishMarketData
    publishAccountBalance := cfg.publishAccountBalance
    publishOrderBook := cfg.publishOrderBook }

/-- `abci.ResponseEndBlock`; EndBlocker always returns the zero value
`abci.ResponseEndBlock{}` (line 399), carrying no validator updates and
no tags. -/
structure ResponseEndBlock where
  validatorUpdates : List Unit
  tags : List (String × String)
deriving DecidableEq, Repr

/-- The zero value `abci.ResponseEndBlock{}`. -/
def emptyResponseEndBlock : ResponseEndBlock :=
  { validatorUpdates := [], tags := [] }

/-- What EndBlocker produced, as far as this development observes it. -/
structure EndBlockerResult where
  isBreathe : Bool
  tradesToPublish : List PubTrade
  didHandoff : Bool
  response : ResponseEndBlock
deriving DecidableEq, Repr

/-- The control skeleton of `EndBlocker` (lines 241-400), with the
matching engine's outputs (`transfers` from `MatchAndAllocateAll`,
`allTrades` from `GetLastTrades`) and the map iteration order of
`*allTrades` passed as parameters.  A breathe block runs the breathe path
and publishes no trades; a normal block with market data live runs the
fee-collection drain and the trade join; a normal block otherwise matches
without a fee collector.  The handoff happens iff `ShouldPublish()`, and
the function always returns the empty `ResponseEndBlock`; `none` models
the goroutine blocking or panicking inside the drain. -/
def endBlockerModel (lastBlockTime blockTime height : Nat) (p : MarketDataPublisher)
    (cap : Nat) (transfers : List Transfer) (allTrades : List (String × List MatchTrade))
    (ocm : String → Option OrderChange) : Option EndBlockerResult :=
  if isBreatheBlock lastBlockTime blockTime height then
    some { isBreathe := true, tradesToPublish := []
           didHandoff := shouldPublish p, response := emptyResponseEndBlock }
  else if p.publishMarketData && p.isLive then
    match feeCollectionPhase cap transfers { ocm := ocm, grouped := fun _ _ => none } with
    | none => none
    | some st =>
        some { isBreathe := false
               tradesToPublish := (joinTrades height st.grouped allTrades).2
               didHandoff := shouldPublish p, response := emptyResponseEndBlock }
  else
    some { isBreathe := false, tradesToPublish := []
           didHandoff := shouldPublish p, response := emptyResponseEndBlock }

/-! ## Concrete inputs used by evaluations and witnesses -/

/-- A grouped-trades map holding the two pairs (b1, s1) and (b2, s2). -/
def twoPairGrouped : String → String → Option PubTrade := fun b s =>
  if b = "b1" then (if s = "s1" then some (newGroupedTrade "b1" "s1") else none)
  else if b = "b2" then (if s = "s2" then some (newGroupedTrade "b2" "s2") else none)
  else none

/-- A matched trade between b1 and s1. -/
def tradeB1S1 : MatchTrade :=
  { bId := "b1", sId := "s1", lastPx := 102000, lastQty := 3000000, buyCumQty := 3000000 }

/-- A matched trade between b2 and s2. -/
def tradeB2S2 : MatchTrade :=
  { bId := "b2", sId := "s2", lastPx := 99, lastQty := 88, buyCumQty := 77 }

/-! ## Theorems -/

/-- **C1** (code bug).  EndBlocker's publication join (lines 315-334)
ranges over the Go map `*allTrades`, whose iteration order is
unspecified and randomized per run.  For the single two-symbol trade map
{AAA_BNB ↦ [tradeB1S1], BBB_BNB ↦ [tradeB2S2]}, the two possible
iteration orders yield `tradesToPublish` payloads that differ (both in
trade order and in the assigned `<height>-<idx>` ids), and under the
second order the trades are not in lexicographic symbol order.  Hence two
runs from identical committed state and identical block inputs need not
produce identical `BlockInfoToPublish` payloads, contradicting the
determinism the code itself is built to provide. -/
theorem c1_publication_depends_on_map_iteration_order :
    ((joinTrades 7 twoPairGrouped
        [("AAA_BNB", [tradeB1S1]), ("BBB_BNB", [tradeB2S2])]).2.map PubTrade.symbol
      = ["AAA_BNB", "BBB_BNB"])
    ∧ ((joinTrades 7 twoPairGrouped
        [("BBB_BNB", [tradeB2S2]), ("AAA_BNB", [tradeB1S1])]).2.map PubTrade.symbol
      = ["BBB_BNB", "AAA_BNB"])
    ∧ ((joinTrades 7 twoPairGrouped
        [("AAA_BNB", [tradeB1S1]), ("BBB_BNB", [tradeB2S2])]).2.map PubTrade.id
      = ["7-0", "7-1"])
    ∧ (joinTrades 7 twoPairGrouped [("AAA_BNB", [tradeB1S1]), ("BBB_BNB", [tradeB2S2])]).2
      ≠ (joinTrades 7 twoPairGrouped [("BBB_BNB", [tradeB2S2]), ("AAA_BNB", [tradeB1S1])]).2 := by
  decide

/-- **C2** (code bug).  `getAccountBalances` appends to the published
`assets` slice only in the free-coin loop, and the copies appended there
never see the `Frozen`/`Locked` writes performed through `assetsMap`
(which point at the heap objects, not at the slice entries).  For an
account with free XYZ 5, frozen BNB 7 and locked XYZ 3, the published
balance list is just `[{XYZ, free 5, frozen 0, locked 0}]`: the BNB
denomination (present only in the frozen list) is absent, and the locked
XYZ amount is lost, contradicting the claimed three-way merge. -/
theorem c2_frozen_and_locked_balances_dropped :
    accountAssets
        { coins := [{ denom := "XYZ", amount := 5 }]
          frozenCoins := [{ denom := "BNB", amount := 7 }]
          lockedCoins := [{ denom := "XYZ", amount := 3 }] }
      = [{ asset := "XYZ", free := 5, frozen := 0, locked := 0 }] := by
  decide

/-- **C3** (confirmed).  For any block of height at least 1, EndBlocker
takes the breathe-block path iff the UTC dates of the last block time and
the current block time differ and the height is greater than 1; at height
1 or on a same-UTC-day pair it takes the normal matching path. -/
theorem c3_breathe_block_trigger (lastBlockTime blockTime height : Nat)
    (h1 : 1 ≤ height) :
    isBreatheBlock lastBlockTime blockTime height = true ↔
      (sameDayInUTC lastBlockTime blockTime = false ∧ 1 < height) := by
  cases hsd : sameDayInUTC lastBlockTime blockTime
  · simp [isBreatheBlock, hsd]
    omega
  · simp [isBreatheBlock, hsd]

/-- Witness for C3: the spec's S5 scenario — last block at
2024-01-01T23:59:50Z (1704153590), current block at 2024-01-02T00:00:05Z
(1704153605), height 1000 — is a breathe block. -/
theorem c3_breathe_block_trigger_witness :
    isBreatheBlock 1704153590 1704153605 1000 = true :=
  (c3_breathe_block_trigger 1704153590 1704153605 1000 (by decide)).mpr
    ⟨by decide, by decide⟩

/-- Helper: a run of sends that fits into the remaining buffer capacity
completes and leaves the buffer occupancy increased by the number of
sends. -/
theorem transChSends_of_le (cap : Nat) :
    ∀ (n buf : Nat), buf + n ≤ cap → transChSends cap n buf = some (buf + n) := by
  intro n
  induction n with
  | zero => intro buf _; simp [transChSends]
  | succ m ih =>
      intro buf h
      have hlt : buf < cap := by omega
      have := ih (buf + 1) (by omega)
      simp only [transChSends, if_pos hlt]
      rw [this]
      congr 1
      omega

/-- **C4** (counterexample).  With `FeeCollectionChannelSize` capacity 1
and two transfers emitted by `MatchAndAllocateAll`, the second synchronous
send on `transCh` finds the buffer full; since the EndBlocker goroutine —
the only possible receiver — receives nothing until `MatchAndAllocateAll`
returns, that send blocks forever and the close/drain is never reached.
So it is not true for *every* number of transfers that all sends complete
before `transCh` is closed. -/
theorem c4_send_blocks_when_transfers_exceed_capacity :
    transChSends 1 2 0 = none
    ∧ feeCollectionPhase 1
        [{ bid := "b", sid := "s", isBuyer := true, isExpired := false, feeFree := true,
           feeTokens := [] },
         { bid := "b", sid := "s", isBuyer := false, isExpired := false, feeFree := true,
           feeTokens := [] }]
        { ocm := fun _ => none, grouped := fun _ _ => none }
      = none := by
  constructor
  · rfl
  · rfl

/-- **C4** (amended).  Provided the number of transfers emitted through
the fee-collector callback does not exceed the `transCh` capacity, every
synchronous send completes (the buffer ends at exactly that count), the
channel is then closed, and the same goroutine drains the transfers in
order through the per-transfer fee logic — so the state-machine thread
does not block on `transCh`. -/
theorem c4_transch_sends_complete_within_capacity (cap : Nat)
    (transfers : List Transfer) (st : DrainState)
    (h : transfers.length ≤ cap) :
    transChSends cap transfers.length 0 = some transfers.length
    ∧ feeCollectionPhase cap transfers st = transfers.foldlM feeDrainStep st := by
  have hs := transChSends_of_le cap transfers.length 0 (by omega)
  simp only [Nat.zero_add] at hs
  refine ⟨hs, ?_⟩
  simp [feeCollectionPhase, hs]

/-- Witness for C4's amended statement: two transfers through a capacity-3
channel complete with buffer occupancy 2. -/
theorem c4_transch_sends_complete_within_capacity_witness :
    transChSends 3 2 0 = some 2 :=
  (c4_transch_sends_complete_within_capacity 3
    [{ bid := "b", sid := "s", isBuyer := true, isExpired := false, feeFree := true,
       feeTokens := [] },
     { bid := "b2", sid := "s2", isBuyer := false, isExpired := false, feeFree := true,
       feeTokens := [] }]
    { ocm := fun _ => none, grouped := fun _ _ => none } (by decide)).1

/-- **C5** (confirmed).  One iteration of the publication join over a
trade from `GetLastTrades()`: when `groupedTrades` has no entry for the
trade's (bid, sid) pair the iteration leaves both the index and the
output list unchanged (the error is only logged — the block is not
aborted); when the entry `t` exists, exactly the single trade
`{t with id := "<height>-<idx>", symbol, price := LastPx, qty := LastQty,
buyCumQty}` is appended and the in-block index advances by one. -/
theorem c5_trade_join_step (height idx : Nat) (out : List PubTrade)
    (grouped : String → String → Option PubTrade) (symbol : String) (trade : MatchTrade) :
    (grouped trade.bId trade.sId = none →
        joinTradesStep height grouped symbol (idx, out) trade = (idx, out))
    ∧ (∀ t, grouped trade.bId trade.sId = some t →
        joinTradesStep height grouped symbol (idx, out) trade =
          (idx + 1, out ++ [{ t with
            id := tradeIdString height idx
            symbol := symbol
            price := trade.lastPx
            qty := trade.lastQty
            buyCumQty := trade.buyCumQty }])) := by
  constructor
  · intro h
    simp [joinTradesStep, h]
  · intro t h
    simp [joinTradesStep, h]

/-- Witness for C5: joining the b1/s1 trade under symbol AAA_BNB at
height 7 and index 0 appends exactly one trade with id "7-0". -/
theorem c5_trade_join_step_witness :
    joinTradesStep 7 twoPairGrouped "AAA_BNB" (0, []) tradeB1S1 =
      (1, [{ (newGroupedTrade "b1" "s1") with
        id := tradeIdString 7 0
        symbol := "AAA_BNB"
        price := tradeB1S1.lastPx
        qty := tradeB1S1.lastQty
        buyCumQty := tradeB1S1.buyCumQty }]) :=
  (c5_trade_join_step 7 0 [] twoPairGrouped "AAA_BNB" tradeB1S1).2
    (newGroupedTrade "b1" "s1") (by decide)

/-- **C7** (confirmed).  For a transfer drained from `transCh` with
`IsExpired()` true: if `FeeFree()` is true the whole drain state — in
particular `OrderChangesMap` — is left unchanged; if `FeeFree()` is false,
the head fee token's denom and amount are written onto the
`OrderChangesMap` entry keyed by the transfer's `Bid` when `IsBuyer()` and
by its `Sid` otherwise, all other entries unchanged. -/
theorem c7_expired_transfer_fee_recording (st : DrainState) (tran : Transfer)
    (hexp : tran.isExpired = true) :
    (tran.feeFree = true → feeDrainStep st tran = some st)
    ∧ (tran.feeFree = false → ∀ tok, tran.feeTokens.head? = some tok →
        ∀ oc, st.ocm (if tran.isBuyer then tran.bid else tran.sid) = some oc →
          feeDrainStep st tran = some { st with
            ocm := fun s =>
              if s = (if tran.isBuyer then tran.bid else tran.sid) then
                some { oc with feeAsset := tok.denom, fee := tok.amount }
              else st.ocm s }) := by
  constructor
  · intro hff
    simp [feeDrainStep, hexp, hff]
  · intro hff tok htok oc hoc
    simp [feeDrainStep, hexp, hff, htok, hoc]

/-- Witness for C7: an expired, non-fee-free buyer-side transfer records
fee token (BNB, 10) on the entry keyed by its bid "b1". -/
theorem c7_expired_transfer_fee_recording_witness :
    feeDrainStep
        { ocm := fun s => if s = "b1" then some { feeAsset := "", fee := 0 } else none
          grouped := fun _ _ => none }
        { bid := "b1", sid := "s1", isBuyer := true, isExpired := true, feeFree := false,
          feeTokens := [{ denom := "BNB", amount := 10 }] }
      = some { ocm := fun s =>
                 if s = (if true then "b1" else "s1") then
                   some { feeAsset := "BNB", fee := 10 }
                 else if s = "b1" then some { feeAsset := "", fee := 0 } else none
               grouped := fun _ _ => none } :=
  (c7_expired_transfer_fee_recording
      { ocm := fun s => if s = "b1" then some { feeAsset := "", fee := 0 } else none
        grouped := fun _ _ => none }
      { bid := "b1", sid := "s1", isBuyer := true, isExpired := true, feeFree := false,
        feeTokens := [{ denom := "BNB", amount := 10 }] }
      rfl).2 rfl { denom := "BNB", amount := 10 } rfl { feeAsset := "", fee := 0 } (by simp)

/-- **C10** (counterexample).  The precondition "every non-fee-free
transfer carries at least one fee token" alone does not rule out a panic
in the drain loop: an expired, non-fee-free transfer whose buyer order id
is absent from `OrderChangesMap` makes line 271 write a field through the
nil `*OrderChange` the Go map returns, a panic (`none` in the model) —
even though its fee-token list is nonempty. -/
theorem c10_drain_panics_on_missing_map_entry :
    feeDrainStep { ocm := fun _ => none, grouped := fun _ _ => none }
        { bid := "b1", sid := "s1", isBuyer := true, isExpired := true, feeFree := false,
          feeTokens := [{ denom := "BNB", amount := 1 }] }
      = none
    ∧ ({ bid := "b1", sid := "s1", isBuyer := true, isExpired := true, feeFree := false,
         feeTokens := [{ denom := "BNB", amount := 1 }] } : Transfer).feeFree = false
    ∧ ({ bid := "b1", sid := "s1", isBuyer := true, isExpired := true, feeFree := false,
         feeTokens := [{ denom := "BNB", amount := 1 }] } : Transfer).feeTokens ≠ [] := by
  refine ⟨rfl, rfl, ?_⟩
  decide

/-- **C10** (amended).  Under the preconditions that every non-fee-free
transfer carries at least one fee token *and* that every expired
non-fee-free transfer's keyed order id (Bid for the buyer side, Sid
otherwise) has an entry in `OrderChangesMap`, every `Fee.Tokens[0]` read
performed by the drain-loop body is in bounds and the body never panics. -/
theorem c10_drain_step_never_panics (st : DrainState) (tran : Transfer)
    (htok : tran.feeFree = false → tran.feeTokens ≠ [])
    (hocm : tran.isExpired = true → tran.feeFree = false →
      st.ocm (if tran.isBuyer then tran.bid else tran.sid) ≠ none) :
    (feeDrainStep st tran).isSome = true := by
  cases hexp : tran.isExpired with
  | true =>
      cases hff : tran.feeFree with
      | true => simp [feeDrainStep, hexp, hff]
      | false =>
          cases htk : tran.feeTokens with
          | nil => exact absurd htk (htok hff)
          | cons tok rest =>
              cases hoc : st.ocm (if tran.isBuyer then tran.bid else tran.sid) with
              | none => exact absurd hoc (hocm hexp hff)
              | some oc => simp [feeDrainStep, hexp, hff, htk, hoc]
  | false =>
      cases hff : tran.feeFree with
      | true => simp [feeDrainStep, hexp, hff]
      | false =>
          cases htk : tran.feeTokens with
          | nil => exact absurd htk (htok hff)
          | cons tok rest =>
              cases hb : tran.isBuyer <;> simp [feeDrainStep, hexp, hff, htk, hb]

/-- Witness for C10's amended statement: an expired buyer-side transfer
with a fee token and a present map entry is processed without panic. -/
theorem c10_drain_step_never_panics_witness :
    (feeDrainStep
        { ocm := fun s => if s = "b1" then some { feeAsset := "", fee := 0 } else none
          grouped := fun _ _ => none }
        { bid := "b1", sid := "s1", isBuyer := true, isExpired := true, feeFree := false,
          feeTokens := [{ denom := "BNB", amount := 10 }] }).isSome = true :=
  c10_drain_step_never_panics
    { ocm := fun s => if s = "b1" then some { feeAsset := "", fee := 0 } else none
      grouped := fun _ _ => none }
    { bid := "b1", sid := "s1", isBuyer := true, isExpired := true, feeFree := false,
      feeTokens := [{ denom := "BNB", amount := 10 }] }
    (fun _ => by decide) (fun _ _ => by simp)

/-- Helper: an id already mapped to `none` stays `none` under further
erasures. -/
theorem ocmEraseAll_none_stable (ids : List String) :
    ∀ (m : String → Option OrderChange) (id : String), m id = none →
      ocmEraseAll ids m id = none := by
  induction ids with
  | nil => intro m id h; exact h
  | cons i tl ih =>
      intro m id h
      refine ih (ocmErase m i) id ?_
      unfold ocmErase
      by_cases hid : id = i
      · simp [hid]
      · simp [hid, h]

/-- Helper: every received id is erased. -/
theorem ocmEraseAll_mem (ids : List String) :
    ∀ (m : String → Option OrderChange) (id : String), id ∈ ids →
      ocmEraseAll ids m id = none := by
  induction ids with
  | nil => intro _ _ h; cases h
  | cons i tl ih =>
      intro m id h
      rcases List.mem_cons.mp h with rfl | hmem
      · exact ocmEraseAll_none_stable tl (ocmErase m id) id (by simp [ocmErase])
      · exact ih (ocmErase m i) id hmem

/-- Helper: an id never received keeps its original entry. -/
theorem ocmEraseAll_not_mem (ids : List String) :
    ∀ (m : String → Option OrderChange) (id : String), id ∉ ids →
      ocmEraseAll ids m id = m id := by
  induction ids with
  | nil => intro _ _ _; rfl
  | cons i tl ih =>
      intro m id h
      have hne : id ≠ i := fun he => h (he ▸ List.mem_cons_self i tl)
      have := ih (ocmErase m i) id (fun hm => h (List.mem_cons_of_mem i hm))
      show ocmEraseAll tl (ocmErase m i) id = m id
      rw [this]
      simp [ocmErase, hne]

/-- **C6** (confirmed).  The removal loop run after the
`BlockInfoToPublish` send: when the worker reports the ids of the
published terminal-kind orders on `ToRemoveOrderIdCh` and then signals
`RemoveDoneCh`, the loop terminates exactly at the done signal with the
map equal to the original minus precisely the reported ids — every
reported (terminal) id is absent afterwards, every unreported
(non-terminal) id keeps its original entry — and a stream that never
carries the done signal never lets the loop exit. -/
theorem c6_order_changes_map_removal (terminalIds : List String)
    (m : String → Option OrderChange) :
    drainRemovals (terminalIds.map RemoveEvent.removeId ++ [RemoveEvent.removeDone]) m
      = some (ocmEraseAll terminalIds m)
    ∧ (∀ id, id ∈ terminalIds → ocmEraseAll terminalIds m id = none)
    ∧ (∀ id, id ∉ terminalIds → ocmEraseAll terminalIds m id = m id)
    ∧ drainRemovals (terminalIds.map RemoveEvent.removeId) m = none := by
  refine ⟨?_, fun id h => ocmEraseAll_mem terminalIds m id h,
    fun id h => ocmEraseAll_not_mem terminalIds m id h, ?_⟩
  · induction terminalIds generalizing m with
    | nil => rfl
    | cons i tl ih => exact ih (ocmErase m i)
  · induction terminalIds generalizing m with
    | nil => rfl
    | cons i tl ih => exact ih (ocmErase m i)

/-- Witness for C6: with the worker reporting ["o1"] and the map holding
entries for "o1" and "o2", after the drain "o1" is gone and "o2"
survives with its original record. -/
theorem c6_order_changes_map_removal_witness :
    ocmEraseAll ["o1"]
        (fun s => if s = "o1" then some { feeAsset := "x", fee := 1 }
                  else if s = "o2" then some { feeAsset := "y", fee := 2 } else none)
        "o1" = none
    ∧ ocmEraseAll ["o1"]
        (fun s => if s = "o1" then some { feeAsset := "x", fee := 1 }
                  else if s = "o2" then some { feeAsset := "y", fee := 2 } else none)
        "o2" = some { feeAsset := "y", fee := 2 } :=
  ⟨(c6_order_changes_map_removal ["o1"]
      (fun s => if s = "o1" then some { feeAsset := "x", fee := 1 }
                else if s = "o2" then some { feeAsset := "y", fee := 2 } else none)).2.1
      "o1" (by decide),
   ((c6_order_changes_map_removal ["o1"]
      (fun s => if s = "o1" then some { feeAsset := "x", fee := 1 }
                else if s = "o2" then some { feeAsset := "y", fee := 2 } else none)).2.2.1
      "o2" (by decide)).trans (by simp)⟩

/-- Helper: the address loop never overwrites an entry already present in
`res`. -/
theorem getAccountBalances_preserve (f : String → Option NamedAccount)
    (l : List String) :
    ∀ (res : String → Option Account) (s : String) (a : Account), res s = some a →
      getAccountBalances f res l s = some a := by
  induction l with
  | nil => intro _ _ _ h; exact h
  | cons x tl ih =>
      intro res s a h
      refine ih (gabStep f res x) s a ?_
      unfold gabStep
      cases hx : res x with
      | some _ => exact h
      | none =>
          cases hfx : f x with
          | none => exact h
          | some acc =>
              unfold insertAccount
              by_cases hsx : s = x
              · rw [hsx] at h; rw [h] at hx; cases hx
              · simp [hsx, h]

/-- Helper: one loop iteration produces an entry at `s` only if one was
already present or the iteration's address is `s` itself and its account
lookup succeeded. -/
theorem gabStep_ne (f : String → Option NamedAccount) (res : String → Option Account)
    (x s : String) (h : gabStep f res x s ≠ none) :
    res s ≠ none ∨ (s = x ∧ f s ≠ none) := by
  cases hx : res x with
  | some v =>
      simp only [gabStep, hx] at h
      exact Or.inl h
  | none =>
      cases hfx : f x with
      | none =>
          simp only [gabStep, hx, hfx] at h
          exact Or.inl h
      | some acc =>
          simp only [gabStep, hx, hfx, insertAccount] at h
          by_cases hsx : s = x
          · exact Or.inr ⟨hsx, by rw [hsx, hfx]; simp⟩
          · rw [if_neg hsx] at h
            exact Or.inl h

/-- Helper: an entry in the result comes from the initial map or from a
scanned address whose lookup succeeded. -/
theorem getAccountBalances_ne (f : String → Option NamedAccount) (l : List String) :
    ∀ (res : String → Option Account) (s : String),
      getAccountBalances f res l s ≠ none →
        res s ≠ none ∨ (s ∈ l ∧ f s ≠ none) := by
  induction l with
  | nil => intro _ _ h; exact Or.inl h
  | cons x tl ih =>
      intro res s h
      rcases ih (gabStep f res x) s h with h1 | ⟨hmem, hf⟩
      · rcases gabStep_ne f res x s h1 with h2 | ⟨rfl, hf⟩
        · exact Or.inl h2
        · exact Or.inr ⟨List.mem_cons_self s tl, hf⟩
      · exact Or.inr ⟨List.mem_cons_of_mem x hmem, hf⟩

/-- Helper: a scanned address with a successful lookup ends up in the
result. -/
theorem getAccountBalances_complete (f : String → Option NamedAccount) (l : List String) :
    ∀ (res : String → Option Account) (s : String) (acc : NamedAccount),
      s ∈ l → f s = some acc → getAccountBalances f res l s ≠ none := by
  induction l with
  | nil => intro _ _ _ h _; cases h
  | cons x tl ih =>
      intro res s acc hmem hf
      rcases List.mem_cons.mp hmem with rfl | hmem'
      · have hstep : ∃ a, gabStep f res s s = some a := by
          unfold gabStep
          cases hx : res s with
          | some v => exact ⟨v, hx⟩
          | none =>
              refine ⟨{ owner := s, balances := accountAssets acc }, ?_⟩
              rw [hf]
              simp [insertAccount]
        rcases hstep with ⟨a, ha⟩
        have hpres := getAccountBalances_preserve f tl (gabStep f res s) s a ha
        show getAccountBalances f (gabStep f res s) tl s ≠ none
        rw [hpres]
        exact Option.some_ne_none a
      · exact ih (gabStep f res x) s acc hmem' hf

/-- **C9** (confirmed).  For any two address iteration sequences and any
account lookup (covering both the `GetAccount` fetch and the
`NamedAccount` type assertion): an address appears in the map returned by
`getAllChangedAccountBalances` only if it lies in the union of the two
sets *and* its lookup succeeds — so every failed or mistyped lookup is
skipped without failing the block — and conversely every address of the
union whose lookup succeeds appears (maps are key-unique, so it appears
exactly once). -/
theorem c9_account_snapshot_scope (f : String → Option NamedAccount)
    (txRelated tradeRelated : List String) (s : String) :
    (getAllChangedAccountBalances f txRelated tradeRelated s ≠ none →
        (s ∈ txRelated ∨ s ∈ tradeRelated) ∧ f s ≠ none)
    ∧ (∀ acc, (s ∈ txRelated ∨ s ∈ tradeRelated) → f s = some acc →
        getAllChangedAccountBalances f txRelated tradeRelated s ≠ none) := by
  constructor
  · intro h
    unfold getAllChangedAccountBalances at h
    rcases getAccountBalances_ne f tradeRelated _ s h with h1 | ⟨hmem, hf⟩
    · rcases getAccountBalances_ne f txRelated _ s h1 with h2 | ⟨hmem, hf⟩
      · exact absurd rfl h2
      · exact ⟨Or.inl hmem, hf⟩
    · exact ⟨Or.inr hmem, hf⟩
  · intro acc hmem hf
    unfold getAllChangedAccountBalances
    rcases hmem with htx | htrade
    · have hinner := getAccountBalances_complete f txRelated (fun _ => none) s acc htx hf
      rcases Option.ne_none_iff_exists.mp hinner with ⟨a, ha⟩
      have := getAccountBalances_preserve f tradeRelated _ s a ha.symm
      rw [this]
      exact Option.some_ne_none a
    · exact getAccountBalances_complete f tradeRelated _ s acc htrade hf

/-- Witness for C9: a tx-related address with a valid (empty) account
appears in the snapshot. -/
theorem c9_account_snapshot_scope_witness :
    getAllChangedAccountBalances
        (fun s => if s = "addr1" then some { coins := [], frozenCoins := [], lockedCoins := [] }
                  else none)
        ["addr1"] [] "addr1" ≠ none :=
  (c9_account_snapshot_scope
      (fun s => if s = "addr1" then some { coins := [], frozenCoins := [], lockedCoins := [] }
                else none)
      ["addr1"] [] "addr1").2
    { coins := [], frozenCoins := [], lockedCoins := [] }
    (Or.inl (by decide)) (by simp)

/-- **C8** (confirmed).  Whenever EndBlocker completes, the publication
handoff happened iff `ShouldPublish()` — the aggregation of the per-feed
flags with the worker's `IsLive` bit — held, and the returned
`ResponseEndBlock` is the empty zero value (EndBlocker has no error
return).  In particular, when the publisher's sink failed to initialise
at startup the worker is not live, `ShouldPublish()` is false, and every
block still completes with no handoff and the empty response. -/
theorem c8_handoff_iff_should_publish (lastBlockTime blockTime height cap : Nat)
    (cfg : PublicationConfig) (p : MarketDataPublisher)
    (transfers : List Transfer) (allTrades : List (String × List MatchTrade))
    (ocm : String → Option OrderChange) :
    (∀ r, endBlockerModel lastBlockTime blockTime height p cap transfers allTrades ocm
          = some r →
        r.didHandoff = shouldPublish p ∧ r.response = emptyResponseEndBlock)
    ∧ shouldPublish (initPublisher cfg false) = false
    ∧ (∃ r, endBlockerModel lastBlockTime blockTime height (initPublisher cfg false) cap
          transfers allTrades ocm = some r
        ∧ r.didHandoff = false ∧ r.response = emptyResponseEndBlock) := by
  refine ⟨?_, rfl, ?_⟩
  · intro r hr
    unfold endBlockerModel at hr
    by_cases hb : isBreatheBlock lastBlockTime blockTime height = true
    · rw [if_pos hb] at hr
      cases hr
      exact ⟨rfl, rfl⟩
    · rw [if_neg hb] at hr
      by_cases hmd : (p.publishMarketData && p.isLive) = true
      · rw [if_pos hmd] at hr
        cases hfc : feeCollectionPhase cap transfers { ocm := ocm, grouped := fun _ _ => none }
          with
        | none => rw [hfc] at hr; cases hr
        | some st =>
            rw [hfc] at hr
            cases hr
            exact ⟨rfl, rfl⟩
      · rw [if_neg hmd] at hr
        cases hr
        exact ⟨rfl, rfl⟩
  · by_cases hb : isBreatheBlock lastBlockTime blockTime height = true
    · refine ⟨{ isBreathe := true, tradesToPublish := [], didHandoff := false,
                response := emptyResponseEndBlock }, ?_, rfl, rfl⟩
      unfold endBlockerModel
      rw [if_pos hb]
      rfl
    · refine ⟨{ isBreathe := false, tradesToPublish := [], didHandoff := false,
                response := emptyResponseEndBlock }, ?_, rfl, rfl⟩
      unfold endBlockerModel
      rw [if_neg hb, if_neg (by simp [initPublisher])]
      rfl

/-- Witness for C8: at a normal block with a live publisher and no
transfers or trades, EndBlocker completes, hands off, and returns the
empty response. -/
theorem c8_handoff_iff_should_publish_witness :
    endBlockerModel 0 0 1
        (initPublisher { publishMarketData := true, publishAccountBalance := true,
                         publishOrderBook := true } true)
        4 [] [] (fun _ => none)
      = some { isBreathe := false, tradesToPublish := [], didHandoff := true,
               response := emptyResponseEndBlock }
    ∧ ({ isBreathe := false, tradesToPublish := [], didHandoff := true,
         response := emptyResponseEndBlock } : EndBlockerResult).didHandoff
        = shouldPublish
            (initPublisher { publishMarketData := true, publishAccountBalance := true,
                             publishOrderBook := true } true) :=
  ⟨rfl,
   ((c8_handoff_iff_should_publish 0 0 1 4
        { publishMarketData := true, publishAccountBalance := true, publishOrderBook := true }
        (initPublisher { publishMarketData := true, publishAccountBalance := true,
                         publishOrderBook := true } true)
        [] [] (fun _ => none)).1
      { isBreathe := false, tradesToPublish := [], didHandoff := true,
        response := emptyResponseEndBlock } rfl).1⟩

end BinanceChain
